import Mathlib

/-!
Shallow embedding of `src/dataverse.py` (Dataverse ETL pipeline).

Dictionaries (Python `dict` with string keys and string-ish JSON scalar
values) are modelled as ordered association lists `List (String × String)`;
lookup returns the first binding, as Python dicts have unique keys and the
inputs we build have no duplicate keys.  A Python falsy field value
(empty string / null) is modelled as `""`.  Network interaction is
modelled by oracles: the identity-provider outcome, the unit-query
response, the per-unit detail response and the blob download function,
together with a trace of the network calls the pipeline issues.  The
file system (checkpoint file and per-unit output files) is explicit
state.
-/

namespace Dataverse

/-- Ordered association list standing for a Python `dict` of JSON scalars. -/
abbrev Dict := List (String × String)

/-- `d[k]` as an `Option`: first binding wins (keys are unique in practice). -/
def lookupD (d : Dict) (k : String) : Option String :=
  (d.find? (fun p => p.1 == k)).map (fun p => p.2)

/-- Python `d.get(k, dflt)`. -/
def getD (d : Dict) (k dflt : String) : String :=
  (lookupD d k).getD dflt

/-- Python `k in d`. -/
def hasKey (d : Dict) (k : String) : Bool :=
  d.any (fun p => p.1 == k)

/-- Python `d[k] = v`: replace the binding in place, else append. -/
def setD (d : Dict) (k v : String) : Dict :=
  if hasKey d k then d.map (fun p => if p.1 == k then (p.1, v) else p)
  else d ++ [(k, v)]

/-- Python `{**a, **b}`: keys of `a` in order (values overridden by `b`
where present), then the keys of `b` not in `a`, in `b`'s order. -/
def mergeD (a b : Dict) : Dict :=
  a.map (fun p => (p.1, getD b p.1 p.2)) ++ b.filter (fun p => ¬ hasKey a p.1)

/-- Python `s.upper()` (ASCII case mapping; the data here is ASCII). -/
def pyUpper (s : String) : String := String.mk (s.data.map Char.toUpper)

/-- ASCII whitespace, as Python `str.strip()` removes it. -/
def isSpaceC (c : Char) : Bool :=
  c = ' ' || c = '\t' || c = '\n' || c = '\r' || c = '\x0b' || c = '\x0c'

/-- Python `s.strip()`: drop leading and trailing whitespace. -/
def pyStrip (s : String) : String :=
  String.mk (((s.data.dropWhile isSpaceC).reverse.dropWhile isSpaceC).reverse)

/-- Python `s.split(",")` at the character level; the empty string splits
to one empty piece. -/
def splitCommaC (l : List Char) : List (List Char) :=
  match l with
  | [] => [[]]
  | c :: cs =>
    let r := splitCommaC cs
    if c = ',' then [] :: r
    else
      match r with
      | [] => [[c]]
      | h :: t => (c :: h) :: t

/-- Python `s.split(",")`. -/
def pySplitComma (s : String) : List String :=
  (splitCommaC s.data).map String.mk

/-- Is `a` a leading segment of `b`? -/
def isPrefixChars (a b : List Char) : Bool :=
  match a, b with
  | [], _ => true
  | _ :: _, [] => false
  | x :: xs, y :: ys => x == y && isPrefixChars xs ys

/-- Contiguous containment of `needle` in `hay`. -/
def isSubChars (needle hay : List Char) : Bool :=
  match hay with
  | [] => needle.isEmpty
  | y :: t => isPrefixChars needle (y :: t) || isSubChars needle t

/-- Python `needle in hay` on strings: contiguous substring containment. -/
def strIn (needle hay : String) : Bool :=
  isSubChars needle.data hay.data

/-! ### Month lookup table (src/dataverse.py lines 75-88) -/

/-- The `month_mapping` dict, in insertion order. -/
def month_mapping : Dict :=
  [("01", "JAN"), ("JANUARY", "JAN"), ("JAN", "JAN"),
   ("02", "FEB"), ("FEBRUARY", "FEB"), ("FEB", "FEB"),
   ("03", "MAR"), ("MARCH", "MAR"), ("MAR", "MAR"),
   ("04", "APR"), ("APRIL", "APR"), ("APR", "APR"),
   ("05", "MAY"), ("MAY", "MAY"),
   ("06", "JUN"), ("JUNE", "JUN"), ("JUN", "JUN"),
   ("07", "JUL"), ("JULY", "JUL"), ("JUL", "JUL"),
   ("08", "AUG"), ("AUGUST", "AUG"), ("AUG", "AUG"),
   ("09", "SEP"), ("SEPTEMBER", "SEP"), ("SEP", "SEP"),
   ("10", "OCT"), ("OCTOBER", "OCT"), ("OCT", "OCT"),
   ("11", "NOV"), ("NOVEMBER", "NOV"), ("NOV", "NOV"),
   ("12", "DEC"), ("DECEMBER", "DEC"), ("DEC", "DEC")]

/-- Python `month_input in month_mapping`. -/
def monthValid (m : String) : Bool := hasKey month_mapping m

/-- Lines 95-101: on a valid (already stripped and upper-cased) month input,
`month_numeric` is the first key of the table whose value equals
`month_mapping[month_input]` and `month_name` is `month_mapping[month_input]`;
an invalid input yields `none` (the program calls `exit(1)` there). -/
def monthResolve (m : String) : Option (String × String) :=
  match lookupD month_mapping m with
  | none => none
  | some ab =>
    match (month_mapping.filter (fun p => p.2 == ab)).head? with
    | none => none
    | some p => some (p.1, ab)

/-! ### Token acquisition (src/dataverse.py lines 23-43) -/

/-- Outcome of `app.acquire_token_for_client`: a response dict containing
`access_token`, a response dict without it (with an optional
`error_description`), or a raised exception. -/
inductive TokenOutcome where
  | success : String → TokenOutcome
  | failure : Option String → TokenOutcome
  | exn : String → TokenOutcome

/-- What `get_access_token` does for the caller: return a token string,
terminate the process via `exit(1)`, or return Python `None`. -/
inductive TokenResult where
  | token : String → TokenResult
  | exited : Nat → TokenResult
  | nothing : TokenResult
deriving DecidableEq

/-- `get_access_token`: `access_token` present → return it; absent →
print and `exit(1)`; exception caught → print and fall off the end of
the function, returning `None`. -/
def get_access_token (o : TokenOutcome) : TokenResult :=
  match o with
  | .success t => .token t
  | .failure _ => .exited 1
  | .exn _ => .nothing

/-! ### Business-unit name matching (lines 91, 120, 173) -/

/-- Line 91 + 120: upper-case the raw comma-separated input, split on
commas, strip each piece. -/
def parse_names (raw : String) : List String :=
  (pySplitComma (pyUpper raw)).map pyStrip

/-- Line 173: `any(name in business_unit_name for name in business_unit_names)`.
The fetched unit name is compared as-is; only the input terms were
upper-cased. -/
def unit_matches (business_unit_names : List String) (business_unit_name : String) : Bool :=
  business_unit_names.any (fun n => strIn n business_unit_name)

/-- Modelled from the spec: the matching relation §4.2/C2 describe,
where the substring comparison is insensitive to the case of both the
input term and the unit name.  The raw input is split and trimmed as the
code does, but both sides of the comparison are case-normalized. -/
def specCaseInsensitiveMatches (raw : String) (business_unit_name : String) : Bool :=
  ((pySplitComma raw).map pyStrip).any
    (fun n => strIn (pyUpper n) (pyUpper business_unit_name))

/-! ### Image enrichment (lines 45-57, 71-72, 267-277) -/

/-- Line 72: base URL for Azure Blob Storage. -/
def base_url : String := "https://tnbsl.blob.core.windows.net/qr2image/"

/-- Line 269: `f"crd8d_gambar{i}_blob"`. -/
def blobAttr (i : Nat) : String := "crd8d_gambar" ++ toString i ++ "_blob"

/-- Line 275: `f"gambar{i}_base64"`. -/
def base64Key (i : Nat) : String := "gambar" ++ toString i ++ "_base64"

/-- Lines 45-57: fetch the image and Base64-encode it, returning the
encoded payload, or `none` (Python `None`) when the request raises.
The network is the oracle `download : url → Option payload`. -/
def download_and_convert_to_base64 (download : String → Option String) (image_url : String) : Option String :=
  download image_url

/-- Lines 268-277, body of `for i in range(1, 6)` for one slot `i`:
when the blob attribute is present and truthy, attempt the download
(recording the call) and on success store the payload under
`gambar{i}_base64`; on failure leave the row unchanged. -/
def enrichSlot (download : String → Option String) (st : Dict × List String) (i : Nat) : Dict × List String :=
  let row := st.1
  match lookupD row (blobAttr i) with
  | some v =>
    if v ≠ "" then
      let image_url := base_url ++ v
      match download_and_convert_to_base64 download image_url with
      | some base64_image => (setD row (base64Key i) base64_image, st.2 ++ [image_url])
      | none => (row, st.2 ++ [image_url])
    else st
  | none => st

/-- Lines 268-277 for one row: fold the five slots in order; also return
the list of image URLs for which a download was attempted. -/
def enrichRow (download : String → Option String) (row : Dict) : Dict × List String :=
  [1, 2, 3, 4, 5].foldl (enrichSlot download) (row, [])

/-! ### The static field mapping (lines 280-339) -/

/-- The `key_mapping` dict, in insertion order. -/
def key_mapping : Dict :=
  [("crd8d_audit", "audit"),
   ("crd8d_catatan", "catatan"),
   ("crd8d_gantipecu@OData.Community.Display.V1.FormattedValue", "gantipecu"),
   ("crd8d_id", "id"),
   ("crd8d_jenamalampu@OData.Community.Display.V1.FormattedValue", "jenamalampu"),
   ("crd8d_jenamaxlampu@OData.Community.Display.V1.FormattedValue", "jenamaxlampu"),
   ("crd8d_jenamaxpecu@OData.Community.Display.V1.FormattedValue", "jenamaxpecu"),
   ("crd8d_jeniskerja@OData.Community.Display.V1.FormattedValue", "jeniskerja"),
   ("crd8d_jenislampu@OData.Community.Display.V1.FormattedValue", "jenislampu"),
   ("crd8d_jenispemasanganbaru@OData.Community.Display.V1.FormattedValue", "jenispemasanganbaru"),
   ("crd8d_jenisxlampu@OData.Community.Display.V1.FormattedValue", "jenisxlampu"),
   ("crd8d_kapasiti@OData.Community.Display.V1.FormattedValue", "kapasiti"),
   ("crd8d_kategorilampu@OData.Community.Display.V1.FormattedValue", "kategorilampu"),
   ("crd8d_kodlampu@OData.Community.Display.V1.FormattedValue", "kodlampu"),
   ("crd8d_kodxlampu@OData.Community.Display.V1.FormattedValue", "kodxlampu"),
   ("crd8d_lampumanyala@OData.Community.Display.V1.FormattedValue", "lampumanyala"),
   ("crd8d_lampurosak@OData.Community.Display.V1.FormattedValue", "lampurosak"),
   ("crd8d_location", "location"),
   ("crd8d_namajalan", "namajalan"),
   ("crd8d_noreport", "noreport"),
   ("crd8d_nosiri", "nosiri"),
   ("crd8d_notiang", "notiang"),
   ("crd8d_perihalkerja", "perihalkerja"),
   ("crd8d_qr2id", "qr2id"),
   ("crd8d_tahunxpecu@OData.Community.Display.V1.FormattedValue", "tahunxpecu"),
   ("crd8d_tarikh", "tarikh"),
   ("crd8d_waktu@OData.Community.Display.V1.FormattedValue", "waktu"),
   ("createdon", "createdon"),
   ("modifiedon", "modifiedon"),
   ("crd8d_nosn", "nosn"),
   ("crd8d_carakawalan@OData.Community.Display.V1.FormattedValue", "carakawalan"),
   ("_createdby_value@OData.Community.Display.V1.FormattedValue", "_createdby_value"),
   ("_modifiedby_value@OData.Community.Display.V1.FormattedValue", "_modifiedby_value"),
   ("_owningbusinessunit_value@OData.Community.Display.V1.FormattedValue", "_owningbusinessunit_value"),
   ("crd8d_lokasikawalanmasa", "lokasikawalanmasa"),
   ("crd8d_namapemegangakaun", "namapemegangakaun"),
   ("crd8d_noakaun", "noakaun"),
   ("_crd8d_admin_value@OData.Community.Display.V1.FormattedValue", "admin_name"),
   ("_crd8d_chargeman_value@OData.Community.Display.V1.FormattedValue", "chargeman_name"),
   ("crd8d_chargemanno", "chargeman_number"),
   ("crd8d_ssmregistrationno", "ssm_registration_number"),
   ("crd8d_tnbvendorno", "tnb_vendor_number"),
   ("zon.crd8d_businessarea", "business_area"),
   ("zon.crd8d_sub_business_area", "sub_business_area"),
   ("zon.crd8d_negeri@OData.Community.Display.V1.FormattedValue", "negeri"),
   ("zon.crd8d_kod", "kod"),
   ("zon.crd8d_region@OData.Community.Display.V1.FormattedValue", "region"),
   ("zon.crd8d_engineer@OData.Community.Display.V1.FormattedValue", "engineer_name"),
   ("zon.crd8d_engineerno", "engineer_number"),
   ("zon.crd8d_technician@OData.Community.Display.V1.FormattedValue", "technician_name"),
   ("zon.crd8d_technicianno", "technician_number"),
   ("zon.crd8d_weekend@OData.Community.Display.V1.FormattedValue", "weekend"),
   ("crd8d_workorderstatus@OData.Community.Display.V1.FormattedValue", "workorderstatus"),
   ("gambar1_base64", "image1_full"),
   ("gambar2_base64", "image2_full"),
   ("gambar3_base64", "image3_full"),
   ("gambar4_base64", "image4_full"),
   ("gambar5_base64", "image5_full")]

/-- Line 363: `{new_key: combined_row.get(old_key, "") for old_key, new_key
in key_mapping.items()}`.  The comprehension's keys come out in the
mapping's order. -/
def remapRow (combined_row : Dict) : Dict :=
  key_mapping.map (fun p => (p.2, getD combined_row p.1 ""))

/-! ### Checkpoint store (lines 104-116, 397-413) -/

/-- One element of the checkpoint JSON array (lines 401-405). -/
structure CkEntry where
  business_unit_id : String
  business_unit_name : String
  total_rows : Nat
deriving DecidableEq

/-- Lines 106-111: the checkpoint file's parsed content, or `[]` when the
file does not exist. -/
def load_checkpoint (file : Option (List CkEntry)) : List CkEntry :=
  file.getD []

/-- Lines 408-411: update the first entry with the given id in place
(`break` after the first hit). -/
def updateFirst (cp : List CkEntry) (buid : String) (rows : Nat) : List CkEntry :=
  match cp with
  | [] => []
  | e :: es =>
    if e.business_unit_id == buid then { e with total_rows := rows } :: es
    else e :: updateFirst es buid rows

/-- Lines 399-411: append a fresh entry when the id is absent, otherwise
update the existing entry's `total_rows`. -/
def update_checkpoint (cp : List CkEntry) (buid buname : String) (rows : Nat) : List CkEntry :=
  if cp.any (fun u => u.business_unit_id == buid) then updateFirst cp buid rows
  else cp ++ [⟨buid, buname, rows⟩]

/-- First checkpoint entry with the given unit id. -/
def findE (cp : List CkEntry) (buid : String) : Option CkEntry :=
  cp.find? (fun u => u.business_unit_id == buid)

/-! ### Output files (lines 371-380) and the file system -/

/-- Lines 372-380: content of the output file after appending one record.
A nonexistent file (`none`) is created holding `[r]`; an existing file's
array is loaded, the record appended, and the array rewritten.  (The
rewrite reuses the open handle after `seek(0)` without truncating; the
serialization of the extended array extends the old text, so the parsed
content is exactly the appended array.) -/
def append_record (file : Option (List Dict)) (r : Dict) : List Dict :=
  match file with
  | none => [r]
  | some existing_data => existing_data ++ [r]

/-- The files the pipeline touches: the checkpoint file and the per-unit
output files, by name.  `none` = the file does not exist. -/
structure FS where
  checkpoint : Option (List CkEntry)
  outputs : String → Option (List Dict)

/-! ### The pipeline (lines 60-429) -/

/-- A network interaction the pipeline can perform, in program order. -/
inductive NetCall where
  | identityRequest : NetCall
  | unitQuery : NetCall
  | detailQuery : String → NetCall
  | imageDownload : String → NetCall
deriving DecidableEq

/-- The external world: identity-provider outcome, unit-query response,
per-unit detail-query response (the year/month date filter is fixed for
the whole run, so the response is keyed by unit id), and the blob store. -/
structure Env where
  tokenOutcome : TokenOutcome
  unitsResponse : List Dict
  detailResponse : String → List Dict
  download : String → Option String

/-- Line 356: `f"{business_unit_name}_{business_unit_negeri}_{month_name}_{year_input}.json"`. -/
def output_file_name (business_unit : Dict) (month_name year_input : String) : String :=
  getD business_unit "name" "Unknown" ++ "_" ++
    getD business_unit "zon.crd8d_negeri@OData.Community.Display.V1.FormattedValue" "Unknown" ++
    "_" ++ month_name ++ "_" ++ year_input ++ ".json"

/-- Lines 357-383: the per-row loop — combine the business unit with the
row, remap, and append the record to the output file. -/
def writeRows (related_data : List Dict) (business_unit : Dict)
    (file_name : String) (fs : FS) : FS :=
  related_data.foldl
    (fun acc row =>
      let remapped_row := remapRow (mergeD business_unit row)
      { acc with
        outputs := Function.update acc.outputs file_name
          (some (append_record (acc.outputs file_name) remapped_row)) })
    fs

/-- Lines 341-418, `remap_and_save_data`: when there are rows, combine
each with the business unit, remap, and append it to the per-unit output
file (creating the file on the first row); then reload the checkpoint and
record the unit with the number of rows processed (0 when there were no
rows — no file is written in that case, but the checkpoint is still
updated).  The per-row `try/except` never fires in this model since the
dictionary operations are total. -/
def remap_and_save_data (related_data : List Dict) (business_unit : Dict)
    (month_name year_input : String) (fs : FS) : FS :=
  let business_unit_name := getD business_unit "name" "Unknown"
  let business_unit_id := getD business_unit "businessunitid" "unknown_id"
  let fs1 :=
    if related_data.isEmpty then fs
    else writeRows related_data business_unit
      (output_file_name business_unit month_name year_input) fs
  let total_rows_processed := related_data.length
  let processed_units := load_checkpoint fs1.checkpoint
  { fs1 with
    checkpoint := some (update_checkpoint processed_units business_unit_id
      business_unit_name total_rows_processed) }

/-- Lines 182-421, one iteration of the loop over matching units: skip
(no network call, no state change) when the unit id is already in the
checkpoint loaded at the start of the run; otherwise issue the detail
query, enrich every row's images (each present, truthy blob slot is one
attempted download), and hand the rows to `remap_and_save_data`. -/
def processUnit (env : Env) (processed_units : List CkEntry)
    (month_name year_input : String) (st : FS × List NetCall) (business_unit : Dict) :
    FS × List NetCall :=
  let business_unit_id := getD business_unit "businessunitid" "unknown_id"
  if processed_units.any (fun u => u.business_unit_id == business_unit_id) then st
  else
    let related_data := env.detailResponse business_unit_id
    let enriched := related_data.map (fun row => enrichRow env.download row)
    let rows := enriched.map (fun p => p.1)
    let downloadCalls := (enriched.map (fun p => p.2.map NetCall.imageDownload)).flatten
    let fs' := remap_and_save_data rows business_unit month_name year_input st.1
    (fs', st.2 ++ [NetCall.detailQuery business_unit_id] ++ downloadCalls)

/-- Lines 182-421: the loop over the matching units. -/
def runUnits (env : Env) (processed_units : List CkEntry)
    (month_name year_input : String) (st : FS × List NetCall)
    (units : List Dict) : FS × List NetCall :=
  units.foldl (processUnit env processed_units month_name year_input) st

/-- How a run of `fetch_business_units_and_related_data` ends. -/
inductive RunStatus where
  | exitedTokenFailure : RunStatus
  | exitedInvalidMonth : RunStatus
  | returnedNoMatch : RunStatus
  | completed : RunStatus
deriving DecidableEq

/-- A run: the network calls issued in order, how it ended, and the file
system it left behind. -/
structure RunOut where
  calls : List NetCall
  status : RunStatus
  fs : FS

/-- Lines 60-421, `fetch_business_units_and_related_data`.  The token
request (line 62) is issued before the console prompts; `exit(1)` inside
`get_access_token` ends the run, while a caught exception there lets the
run continue with a `None` token.  The month input is stripped and
upper-cased, then checked against `month_mapping`; an invalid month is
`exit(1)` before the unit query.  Then all units are fetched, filtered
by name, and each matching unit is processed against the checkpoint. -/
def fetch_business_units_and_related_data (env : Env)
    (business_unit_names_input year_input month_raw : String) (fs : FS) : RunOut :=
  let calls0 := [NetCall.identityRequest]
  match get_access_token env.tokenOutcome with
  | .exited _ => ⟨calls0, .exitedTokenFailure, fs⟩
  | _ =>
    let month_input := pyUpper (pyStrip month_raw)
    match monthResolve month_input with
    | none => ⟨calls0, .exitedInvalidMonth, fs⟩
    | some (_month_numeric, month_name) =>
      let business_unit_names := parse_names business_unit_names_input
      let calls1 := calls0 ++ [NetCall.unitQuery]
      let processed_units := load_checkpoint fs.checkpoint
      let matching_business_units :=
        env.unitsResponse.filter
          (fun bu => unit_matches business_unit_names (getD bu "name" "Unknown"))
      if matching_business_units.isEmpty then ⟨calls1, .returnedNoMatch, fs⟩
      else
        let out := runUnits env processed_units month_name year_input (fs, [])
          matching_business_units
        ⟨calls1 ++ out.2, .completed, out.1⟩

/-- Modelled from the spec: the canonical (two-digit numeric, full name,
three-letter abbreviation) forms of the twelve months, in the spec's
sense (for May the full name and the abbreviation coincide). -/
def monthForms : List (String × String × String) :=
  [("01", "JANUARY", "JAN"), ("02", "FEBRUARY", "FEB"), ("03", "MARCH", "MAR"),
   ("04", "APRIL", "APR"), ("05", "MAY", "MAY"), ("06", "JUNE", "JUN"),
   ("07", "JULY", "JUL"), ("08", "AUGUST", "AUG"), ("09", "SEPTEMBER", "SEP"),
   ("10", "OCTOBER", "OCT"), ("11", "NOVEMBER", "NOV"), ("12", "DECEMBER", "DEC")]

/-- Modelled from the spec: the month forms C10 says are accepted —
two-digit numerics, full names, and three-letter abbreviations. -/
def acceptedMonthForms : List String :=
  ["01", "02", "03", "04", "05", "06", "07", "08", "09", "10", "11", "12",
   "JANUARY", "FEBRUARY", "MARCH", "APRIL", "MAY", "JUNE", "JULY", "AUGUST",
   "SEPTEMBER", "OCTOBER", "NOVEMBER", "DECEMBER",
   "JAN", "FEB", "MAR", "APR", "MAY", "JUN", "JUL", "AUG", "SEP", "OCT",
   "NOV", "DEC"]

/-! ## Theorems -/

/-- C4: appending a record to a nonexistent output file yields exactly the
one-element array `[r]`; appending to an existing N-element array yields an
(N+1)-element array whose first N elements are the prior elements unchanged
and whose last element is the new record. -/
theorem C4_append_record_spec (r : Dict) (existing_data : List Dict) :
    append_record none r = [r] ∧
    (append_record (some existing_data) r).length = existing_data.length + 1 ∧
    (append_record (some existing_data) r).take existing_data.length = existing_data ∧
    (append_record (some existing_data) r).getLast? = some r := by
  exact ⟨rfl, by simp [append_record], by simp [append_record, List.take_left],
    by simp [append_record]⟩

/-- C7: for each month, the two-digit numeric form, the full name, and the
three-letter abbreviation all resolve to the same canonical
(numeric, abbreviation) pair. -/
theorem C7_month_resolution (t : String × String × String) (h : t ∈ monthForms) :
    monthResolve t.1 = some (t.1, t.2.2) ∧
    monthResolve t.2.1 = some (t.1, t.2.2) ∧
    monthResolve t.2.2 = some (t.1, t.2.2) := by
  fin_cases h <;> exact ⟨rfl, rfl, rfl⟩

/-- C7 witness: the March instance. -/
theorem C7_month_resolution_witness :
    monthResolve "03" = some ("03", "MAR") ∧
    monthResolve "MARCH" = some ("03", "MAR") ∧
    monthResolve "MAR" = some ("03", "MAR") :=
  C7_month_resolution ("03", "MARCH", "MAR") (by decide)

/-- C3, counterexample to the claim as stated: when token acquisition
raises an exception, `get_access_token` prints a diagnostic and returns
Python `None` instead of terminating the process. -/
theorem C3_counterexample :
    get_access_token (TokenOutcome.exn "connection error") = TokenResult.nothing := rfl

/-- C3 as amended: on a response carrying an access token the function
returns that token; on a response without one it terminates via `exit(1)`;
but on a raised exception it returns `None` after printing a diagnostic. -/
theorem C3_token_result (o : TokenOutcome) :
    (∀ t, o = TokenOutcome.success t → get_access_token o = TokenResult.token t) ∧
    (∀ e, o = TokenOutcome.failure e → get_access_token o = TokenResult.exited 1) ∧
    (∀ m, o = TokenOutcome.exn m → get_access_token o = TokenResult.nothing) := by
  refine ⟨?_, ?_, ?_⟩ <;> rintro x rfl <;> rfl

/-- C3 witness: the success case returns the token. -/
theorem C3_token_result_witness :
    get_access_token (TokenOutcome.success "tok") = TokenResult.token "tok" :=
  (C3_token_result (TokenOutcome.success "tok")).1 "tok" rfl

/-- Correctness of the executable containment check against `List.IsInfix`,
prefix part. -/
theorem isPrefixChars_iff (a b : List Char) : isPrefixChars a b = true ↔ a <+: b := by
  induction a generalizing b with
  | nil => simp [isPrefixChars]
  | cons x xs ih =>
    cases b with
    | nil => simp [isPrefixChars]
    | cons y ys => simp [isPrefixChars, List.cons_prefix_cons, ih]

/-- Correctness of the executable containment check against `List.IsInfix`. -/
theorem isSubChars_iff (n h : List Char) : isSubChars n h = true ↔ n <:+: h := by
  induction h with
  | nil => simp [isSubChars, List.infix_nil, List.isEmpty_iff]
  | cons y ys ih => simp [isSubChars, ih, isPrefixChars_iff, List.infix_cons_iff]

/-- C2, counterexample to the claim as stated: the user enters `alpha` and
a fetched unit is named `alpha zone`; under case-insensitive comparison the
term is a substring of the name, yet the code does not select the unit
(the input was upper-cased but the unit name was not). -/
theorem C2_counterexample :
    unit_matches (parse_names "alpha") "alpha zone" = false ∧
    specCaseInsensitiveMatches "alpha" "alpha zone" = true := by
  exact ⟨by decide, by decide⟩

/-- C2 as amended: a unit is selected iff some input term, upper-cased and
trimmed, is a case-sensitive substring of the unit's name as fetched —
matching is insensitive to the case of the input term only. -/
theorem C2_matching (raw business_unit_name : String) :
    unit_matches (parse_names raw) business_unit_name = true ↔
    ∃ n ∈ parse_names raw, n.data <:+: business_unit_name.data := by
  simp [unit_matches, strIn, List.any_eq_true, isSubChars_iff]

/-- C2 witness: the upper-cased term `ALPHA` from input `Alpha` is found
in the unit name `ALPHA ZONE`. -/
theorem C2_matching_witness :
    unit_matches (parse_names "Alpha") "ALPHA ZONE" = true :=
  (C2_matching "Alpha" "ALPHA ZONE").mpr
    ⟨"ALPHA", by decide, (isSubChars_iff "ALPHA".data "ALPHA ZONE".data).mp (by decide)⟩

/-- A key is present (Python `k in d`) exactly when it is among the
dictionary's keys. -/
theorem hasKey_iff_mem (d : Dict) (k : String) :
    hasKey d k = true ↔ k ∈ d.map (fun p => p.1) := by
  simp only [hasKey, List.any_eq_true, List.mem_map, beq_iff_eq]

/-- C1, counterexample to the claim as stated: with a healthy identity
provider, an invalid month input (`XX`) does terminate the run, but the
token-acquisition network request has already been performed before the
month prompt, so termination does not precede every network call. -/
theorem C1_counterexample :
    (fetch_business_units_and_related_data
        ⟨TokenOutcome.success "tok", [], fun _ => [], fun _ => none⟩
        "A" "2024" "XX" ⟨none, fun _ => none⟩).status = RunStatus.exitedInvalidMonth ∧
    (fetch_business_units_and_related_data
        ⟨TokenOutcome.success "tok", [], fun _ => [], fun _ => none⟩
        "A" "2024" "XX" ⟨none, fun _ => none⟩).calls = [NetCall.identityRequest] :=
  ⟨rfl, rfl⟩

/-- Shared fact: a month input that is not in the lookup table stops the
run with only the token request in the network trace and the file system
untouched. -/
theorem run_invalid_month (env : Env) (names year month : String) (fs : FS)
    (h : monthResolve (pyUpper (pyStrip month)) = none) :
    (fetch_business_units_and_related_data env names year month fs).calls =
      [NetCall.identityRequest] ∧
    ((fetch_business_units_and_related_data env names year month fs).status =
        RunStatus.exitedTokenFailure ∨
     (fetch_business_units_and_related_data env names year month fs).status =
        RunStatus.exitedInvalidMonth) ∧
    (fetch_business_units_and_related_data env names year month fs).fs = fs := by
  obtain ⟨o, ur, dr, dl⟩ := env
  cases o with
  | success t => simp [fetch_business_units_and_related_data, get_access_token, h]
  | failure e => exact ⟨rfl, Or.inl rfl, rfl⟩
  | exn m => simp [fetch_business_units_and_related_data, get_access_token, h]

/-- C1 as amended: an invalid month input terminates the run before any
Dataverse network call (unit query, detail query or image download) and
before any file is touched; the only network interaction that can precede
the termination is the token-acquisition request, which the program issues
before reading its prompts. -/
theorem C1_invalid_month_terminates (env : Env) (names year month : String) (fs : FS)
    (h : monthResolve (pyUpper (pyStrip month)) = none) :
    (fetch_business_units_and_related_data env names year month fs).calls =
      [NetCall.identityRequest] ∧
    ((fetch_business_units_and_related_data env names year month fs).status =
        RunStatus.exitedTokenFailure ∨
     (fetch_business_units_and_related_data env names year month fs).status =
        RunStatus.exitedInvalidMonth) ∧
    (fetch_business_units_and_related_data env names year month fs).fs = fs :=
  run_invalid_month env names year month fs h

/-- C1 witness: the amended statement at the concrete invalid month `XX`. -/
theorem C1_invalid_month_terminates_witness :
    (fetch_business_units_and_related_data
        ⟨TokenOutcome.success "tok", [], fun _ => [], fun _ => none⟩
        "A" "2024" "XX" ⟨some [], fun _ => none⟩).calls = [NetCall.identityRequest] ∧
    ((fetch_business_units_and_related_data
        ⟨TokenOutcome.success "tok", [], fun _ => [], fun _ => none⟩
        "A" "2024" "XX" ⟨some [], fun _ => none⟩).status = RunStatus.exitedTokenFailure ∨
     (fetch_business_units_and_related_data
        ⟨TokenOutcome.success "tok", [], fun _ => [], fun _ => none⟩
        "A" "2024" "XX" ⟨some [], fun _ => none⟩).status = RunStatus.exitedInvalidMonth) ∧
    (fetch_business_units_and_related_data
        ⟨TokenOutcome.success "tok", [], fun _ => [], fun _ => none⟩
        "A" "2024" "XX" ⟨some [], fun _ => none⟩).fs = ⟨some [], fun _ => none⟩ :=
  C1_invalid_month_terminates
    ⟨TokenOutcome.success "tok", [], fun _ => [], fun _ => none⟩
    "A" "2024" "XX" ⟨some [], fun _ => none⟩ (by decide)

/-- C10: the no-leading-zero month `3` is not in the lookup table, so the
run terminates without a Dataverse call; and the table's keys are exactly
the two-digit numerals, the full month names, and the three-letter
abbreviations. -/
theorem C10_month_forms (env : Env) (names year : String) (fs : FS) :
    monthValid "3" = false ∧
    monthResolve "3" = none ∧
    ((fetch_business_units_and_related_data env names year "3" fs).status =
        RunStatus.exitedTokenFailure ∨
     (fetch_business_units_and_related_data env names year "3" fs).status =
        RunStatus.exitedInvalidMonth) ∧
    (fetch_business_units_and_related_data env names year "3" fs).calls =
      [NetCall.identityRequest] ∧
    (∀ s : String, monthValid s = true ↔ s ∈ acceptedMonthForms) := by
  have hkey : ∀ s : String, monthValid s = true ↔ s ∈ month_mapping.map (fun p => p.1) :=
    fun s => hasKey_iff_mem month_mapping s
  have h₁ : ∀ x ∈ month_mapping.map (fun p => p.1), x ∈ acceptedMonthForms := by decide
  have h₂ : ∀ x ∈ acceptedMonthForms, x ∈ month_mapping.map (fun p => p.1) := by decide
  have hrun := run_invalid_month env names year "3" fs (by decide)
  exact ⟨rfl, rfl, hrun.2.1, hrun.1,
    fun s => ⟨fun hv => h₁ s ((hkey s).mp hv), fun hv => (hkey s).mpr (h₂ s hv)⟩⟩

/-- C10 witness: the amended-free statement at a concrete environment. -/
theorem C10_month_forms_witness :
    monthValid "3" = false ∧ monthValid "03" = true ∧ "MAY" ∈ acceptedMonthForms :=
  ⟨(C10_month_forms ⟨TokenOutcome.success "tok", [], fun _ => [], fun _ => none⟩
      "A" "2024" ⟨none, fun _ => none⟩).1,
   ((C10_month_forms ⟨TokenOutcome.success "tok", [], fun _ => [], fun _ => none⟩
      "A" "2024" ⟨none, fun _ => none⟩).2.2.2.2 "03").mpr (by decide),
   by decide⟩

/-- Updating the first matching entry in place never changes the list of
unit ids. -/
theorem updateFirst_map_id (cp : List CkEntry) (buid : String) (rows : Nat) :
    (updateFirst cp buid rows).map (fun u => u.business_unit_id) =
      cp.map (fun u => u.business_unit_id) := by
  induction cp with
  | nil => rfl
  | cons e es ih =>
    simp only [updateFirst]
    split
    · simp
    · simp [ih]

/-- C6: the checkpoint update keeps unit ids unique — the freshly created
checkpoint (absent file) is trivially duplicate-free, and an update of a
duplicate-free checkpoint (in-place row-count update or append of a new
unit) yields a duplicate-free checkpoint. -/
theorem C6_checkpoint_unique (cp : List CkEntry) (buid buname : String) (rows : Nat)
    (h : (cp.map (fun u => u.business_unit_id)).Nodup) :
    ((load_checkpoint none).map (fun u => u.business_unit_id)).Nodup ∧
    ((update_checkpoint cp buid buname rows).map (fun u => u.business_unit_id)).Nodup := by
  refine ⟨by simp [load_checkpoint], ?_⟩
  unfold update_checkpoint
  split
  · rwa [updateFirst_map_id]
  · rename_i hn
    have hb : buid ∉ cp.map (fun u => u.business_unit_id) := by
      intro hmem
      apply hn
      rw [List.any_eq_true]
      rcases List.mem_map.mp hmem with ⟨u, hu, he⟩
      exact ⟨u, hu, by simp [he]⟩
    simp only [List.map_append, List.map_cons, List.map_nil, List.nodup_append]
    exact ⟨h, List.nodup_singleton buid, by simpa [List.disjoint_left] using hb⟩

/-- C6 witness: appending a fresh unit to a one-entry checkpoint keeps the
ids duplicate-free. -/
theorem C6_checkpoint_unique_witness :
    ((load_checkpoint none).map (fun u => u.business_unit_id)).Nodup ∧
    ((update_checkpoint [⟨"u1", "ALPHA", 2⟩] "u2" "BETA" 3).map
        (fun u => u.business_unit_id)).Nodup :=
  C6_checkpoint_unique [⟨"u1", "ALPHA", 2⟩] "u2" "BETA" 3 (by decide)

/-- Looking up a destination key in an association list built by mapping
over a table with duplicate-free destinations retrieves that entry. -/
theorem lookupD_keyed_map (l : Dict) (g : String × String → String) (p : String × String)
    (hp : p ∈ l) (hnd : (l.map (fun q => q.2)).Nodup) :
    lookupD (l.map (fun q => (q.2, g q))) p.2 = some (g p) := by
  induction l with
  | nil => cases hp
  | cons q qs ih =>
    rcases List.mem_cons.mp hp with rfl | hmem
    · unfold lookupD
      rw [List.map_cons, List.find?_cons_of_pos _ (by simp)]
      rfl
    · have hq2 : q.2 ≠ p.2 := by
        intro he
        have hpm : p.2 ∈ qs.map (fun r => r.2) := List.mem_map.mpr ⟨p, hmem, rfl⟩
        rw [← he] at hpm
        exact (List.nodup_cons.mp hnd).1 hpm
      unfold lookupD
      rw [List.map_cons, List.find?_cons_of_neg _ (by simp [hq2])]
      exact ih hmem (List.nodup_cons.mp hnd).2

/-- C9: remapping is total over the static table — the output record's
keys are exactly the destination keys of `key_mapping`, in order (hence no
other keys appear), and the value under each destination key is the merged
source's value for the source key, defaulting to the empty string. -/
theorem C9_remap_total (combined_row : Dict) (p : String × String) (hp : p ∈ key_mapping) :
    (remapRow combined_row).map (fun q => q.1) = key_mapping.map (fun q => q.2) ∧
    lookupD (remapRow combined_row) p.2 = some (getD combined_row p.1 "") :=
  ⟨by simp [remapRow], lookupD_keyed_map key_mapping
    (fun q => getD combined_row q.1 "") p hp (by decide)⟩

/-- C9 witness: a source row carrying only `crd8d_audit` remaps to a record
whose `audit` field holds that value, and whose `catatan` field (absent in
the source) holds the empty string. -/
theorem C9_remap_total_witness :
    lookupD (remapRow [("crd8d_audit", "x")]) "audit" = some "x" ∧
    lookupD (remapRow [("crd8d_audit", "x")]) "catatan" = some "" :=
  ⟨(C9_remap_total [("crd8d_audit", "x")] ("crd8d_audit", "audit") (by decide)).2,
   (C9_remap_total [("crd8d_audit", "x")] ("crd8d_catatan", "catatan") (by decide)).2⟩

/-- Writing output rows never touches the checkpoint file. -/
theorem writeRows_checkpoint (related_data : List Dict) (business_unit : Dict)
    (file_name : String) (fs : FS) :
    (writeRows related_data business_unit file_name fs).checkpoint = fs.checkpoint := by
  induction related_data generalizing fs with
  | nil => rfl
  | cons r rs ih => exact ih _

/-- What `remap_and_save_data` does to the checkpoint file: reload it and
apply `update_checkpoint` for this unit with the number of rows written. -/
theorem remap_and_save_data_checkpoint (related_data : List Dict) (business_unit : Dict)
    (month_name year_input : String) (fs : FS) :
    (remap_and_save_data related_data business_unit month_name year_input fs).checkpoint =
      some (update_checkpoint (load_checkpoint fs.checkpoint)
        (getD business_unit "businessunitid" "unknown_id")
        (getD business_unit "name" "Unknown") related_data.length) := by
  unfold remap_and_save_data
  by_cases hre : related_data.isEmpty
  · simp [hre]
  · simp [hre, writeRows_checkpoint]

/-- In-place update of the entry for one id leaves the lookup of a
different id unchanged. -/
theorem findE_updateFirst_of_ne (cp : List CkEntry) (buid : String) (rows : Nat)
    (t : String) (h : buid ≠ t) :
    findE (updateFirst cp buid rows) t = findE cp t := by
  induction cp with
  | nil => rfl
  | cons e es ih =>
    unfold updateFirst findE
    by_cases hb : (e.business_unit_id == buid) = true
    · have hid : e.business_unit_id = buid := by simpa using hb
      have htf : (e.business_unit_id == t) = false := by simp [hid, h]
      simp [hb, List.find?_cons, htf]
    · by_cases he : (e.business_unit_id == t) = true
      · simp [hb, List.find?_cons, he]
      · simp only [Bool.not_eq_true] at he
        simp [hb, List.find?_cons, he]
        exact ih

/-- Appending an entry for one id leaves the lookup of a different id
unchanged. -/
theorem findE_append_single_of_ne (cp : List CkEntry) (e : CkEntry) (t : String)
    (h : e.business_unit_id ≠ t) :
    findE (cp ++ [e]) t = findE cp t := by
  unfold findE
  rw [List.find?_append]
  have hnone : List.find? (fun u => u.business_unit_id == t) [e] = none := by
    simp [List.find?_cons, h]
  rw [hnone]
  cases List.find? (fun u => u.business_unit_id == t) cp <;> rfl

/-- A checkpoint update for one unit leaves every other unit's entry
unchanged. -/
theorem findE_update_of_ne (cp : List CkEntry) (buid buname : String) (rows : Nat)
    (t : String) (h : buid ≠ t) :
    findE (update_checkpoint cp buid buname rows) t = findE cp t := by
  unfold update_checkpoint
  split
  · exact findE_updateFirst_of_ne cp buid rows t h
  · exact findE_append_single_of_ne cp ⟨buid, buname, rows⟩ t h

/-- One loop iteration neither queries detail data for a unit recorded in
the run's loaded checkpoint nor changes that unit's checkpoint entry. -/
theorem processUnit_preserves (env : Env) (pu : List CkEntry) (mname yr : String)
    (st : FS × List NetCall) (bu : Dict) (t : String)
    (ht : pu.any (fun u => u.business_unit_id == t) = true)
    (hc : NetCall.detailQuery t ∉ st.2) :
    NetCall.detailQuery t ∉ (processUnit env pu mname yr st bu).2 ∧
    findE (load_checkpoint (processUnit env pu mname yr st bu).1.checkpoint) t =
      findE (load_checkpoint st.1.checkpoint) t := by
  unfold processUnit
  by_cases hskip :
      (pu.any (fun u => u.business_unit_id == getD bu "businessunitid" "unknown_id")) = true
  · rw [if_pos hskip]
    exact ⟨hc, rfl⟩
  · rw [if_neg hskip]
    have hne : getD bu "businessunitid" "unknown_id" ≠ t := by
      intro he
      exact hskip (by rw [he]; exact ht)
    constructor
    · intro hmem
      rcases List.mem_append.mp hmem with hmem | hmem
      · rcases List.mem_append.mp hmem with hmem | hmem
        · exact hc hmem
        · rcases List.mem_singleton.mp hmem with he
          exact hne (by injection he.symm)
      · rcases List.mem_flatten.mp hmem with ⟨l', hl', hcl⟩
        rcases List.mem_map.mp hl' with ⟨pr, _, rfl⟩
        rcases List.mem_map.mp hcl with ⟨u, _, habs⟩
        exact NetCall.noConfusion habs
    · rw [remap_and_save_data_checkpoint]
      simp only [load_checkpoint, Option.getD_some]
      exact findE_update_of_ne _ _ _ _ _ hne

/-- The loop over all matching units preserves the trace-freedom and
checkpoint entry of every unit recorded in the loaded checkpoint. -/
theorem runUnits_preserves (env : Env) (pu : List CkEntry) (mname yr : String)
    (units : List Dict) (st : FS × List NetCall) (t : String)
    (ht : pu.any (fun u => u.business_unit_id == t) = true)
    (hc : NetCall.detailQuery t ∉ st.2) :
    NetCall.detailQuery t ∉ (runUnits env pu mname yr st units).2 ∧
    findE (load_checkpoint (runUnits env pu mname yr st units).1.checkpoint) t =
      findE (load_checkpoint st.1.checkpoint) t := by
  induction units generalizing st with
  | nil => exact ⟨hc, rfl⟩
  | cons bu rest ih =>
    have hstep := processUnit_preserves env pu mname yr st bu t ht hc
    have hrest := ih (processUnit env pu mname yr st bu) hstep.1
    exact ⟨hrest.1, hrest.2.trans hstep.2⟩

/-- C5: for a unit whose id is already in the loaded checkpoint, a rerun
with the same inputs issues no detail-data query for that unit, and that
unit's checkpoint entry (its row count included) is unchanged after the
run. -/
theorem C5_checkpoint_skip (env : Env) (names year month : String) (fs : FS) (t : String)
    (ht : (load_checkpoint fs.checkpoint).any (fun u => u.business_unit_id == t) = true) :
    NetCall.detailQuery t ∉
      (fetch_business_units_and_related_data env names year month fs).calls ∧
    findE (load_checkpoint
        (fetch_business_units_and_related_data env names year month fs).fs.checkpoint) t =
      findE (load_checkpoint fs.checkpoint) t := by
  obtain ⟨o, ur, dr, dl⟩ := env
  unfold fetch_business_units_and_related_data
  cases o with
  | failure e => exact ⟨by simp [get_access_token], rfl⟩
  | success tk =>
    cases hm : monthResolve (pyUpper (pyStrip month)) with
    | none =>
      exact ⟨by simp [get_access_token, hm], by simp [get_access_token, hm]⟩
    | some pr =>
      obtain ⟨mn, mname⟩ := pr
      simp only [get_access_token, hm]
      split
      · exact ⟨by simp, rfl⟩
      · have hrun := runUnits_preserves ⟨TokenOutcome.success tk, ur, dr, dl⟩
          (load_checkpoint fs.checkpoint) mname year
          (ur.filter (fun bu =>
            unit_matches (parse_names names) (getD bu "name" "Unknown")))
          (fs, []) t ht (by simp)
        refine ⟨?_, hrun.2⟩
        intro hmem
        simp only [RunOut.calls] at hmem
        rcases List.mem_cons.mp hmem with hmem | hmem
        · exact NetCall.noConfusion hmem
        rcases List.mem_cons.mp hmem with hmem | hmem
        · exact NetCall.noConfusion hmem
        · exact hrun.1 hmem
  | exn m =>
    cases hm : monthResolve (pyUpper (pyStrip month)) with
    | none =>
      exact ⟨by simp [get_access_token, hm], by simp [get_access_token, hm]⟩
    | some pr =>
      obtain ⟨mn, mname⟩ := pr
      simp only [get_access_token, hm]
      split
      · exact ⟨by simp, rfl⟩
      · have hrun := runUnits_preserves ⟨TokenOutcome.exn m, ur, dr, dl⟩
          (load_checkpoint fs.checkpoint) mname year
          (ur.filter (fun bu =>
            unit_matches (parse_names names) (getD bu "name" "Unknown")))
          (fs, []) t ht (by simp)
        refine ⟨?_, hrun.2⟩
        intro hmem
        simp only [RunOut.calls] at hmem
        rcases List.mem_cons.mp hmem with hmem | hmem
        · exact NetCall.noConfusion hmem
        rcases List.mem_cons.mp hmem with hmem | hmem
        · exact NetCall.noConfusion hmem
        · exact hrun.1 hmem

/-- C5 witness: a unit `u1` already in the checkpoint is skipped on a
rerun with the same inputs, and its entry keeps its row count. -/
theorem C5_checkpoint_skip_witness :
    NetCall.detailQuery "u1" ∉
      (fetch_business_units_and_related_data
        ⟨TokenOutcome.success "tok", [[("businessunitid", "u1"), ("name", "ALPHA")]],
          fun _ => [], fun _ => none⟩
        "alpha" "2024" "03" ⟨some [⟨"u1", "ALPHA", 2⟩], fun _ => none⟩).calls ∧
    findE (load_checkpoint
        (fetch_business_units_and_related_data
          ⟨TokenOutcome.success "tok", [[("businessunitid", "u1"), ("name", "ALPHA")]],
            fun _ => [], fun _ => none⟩
          "alpha" "2024" "03"
          ⟨some [⟨"u1", "ALPHA", 2⟩], fun _ => none⟩).fs.checkpoint) "u1" =
      findE (load_checkpoint (some [⟨"u1", "ALPHA", 2⟩])) "u1" :=
  C5_checkpoint_skip
    ⟨TokenOutcome.success "tok", [[("businessunitid", "u1"), ("name", "ALPHA")]],
      fun _ => [], fun _ => none⟩
    "alpha" "2024" "03" ⟨some [⟨"u1", "ALPHA", 2⟩], fun _ => none⟩ "u1" (by decide)

/-- C8: on a detail row carrying all five blob references, when the
download of slot 3 fails while slots 1, 2, 4 and 5 succeed, the produced
output record holds the Base64 payloads for slots 1, 2, 4 and 5 and the
empty string for slot 3, and every following row is still processed. -/
theorem C8_slot3_soft_failure (download : String → Option String)
    (r1 r2 r3 r4 r5 b1 b2 b4 b5 buid buname : String) (rest : List Dict)
    (h1 : r1 ≠ "") (h2 : r2 ≠ "") (h3 : r3 ≠ "") (h4 : r4 ≠ "") (h5 : r5 ≠ "")
    (d1 : download (base_url ++ r1) = some b1)
    (d2 : download (base_url ++ r2) = some b2)
    (d3 : download (base_url ++ r3) = none)
    (d4 : download (base_url ++ r4) = some b4)
    (d5 : download (base_url ++ r5) = some b5) :
    let row : Dict := [(blobAttr 1, r1), (blobAttr 2, r2), (blobAttr 3, r3),
      (blobAttr 4, r4), (blobAttr 5, r5)]
    let business_unit : Dict := [("businessunitid", buid), ("name", buname)]
    let out := remapRow (mergeD business_unit (enrichRow download row).1)
    lookupD out "image1_full" = some b1 ∧
    lookupD out "image2_full" = some b2 ∧
    lookupD out "image3_full" = some "" ∧
    lookupD out "image4_full" = some b4 ∧
    lookupD out "image5_full" = some b5 ∧
    ((row :: rest).map
        (fun rw => remapRow (mergeD business_unit (enrichRow download rw).1))).length =
      rest.length + 1 := by
  have e1 : blobAttr 1 = "crd8d_gambar1_blob" := rfl
  have e2 : blobAttr 2 = "crd8d_gambar2_blob" := rfl
  have e3 : blobAttr 3 = "crd8d_gambar3_blob" := rfl
  have e4 : blobAttr 4 = "crd8d_gambar4_blob" := rfl
  have e5 : blobAttr 5 = "crd8d_gambar5_blob" := rfl
  have g1 : base64Key 1 = "gambar1_base64" := rfl
  have g2 : base64Key 2 = "gambar2_base64" := rfl
  have g3 : base64Key 3 = "gambar3_base64" := rfl
  have g4 : base64Key 4 = "gambar4_base64" := rfl
  have g5 : base64Key 5 = "gambar5_base64" := rfl
  simp [enrichRow, enrichSlot, download_and_convert_to_base64,
    e1, e2, e3, e4, e5, g1, g2, g3, g4, g5,
    d1, d2, d3, d4, d5, h1, h2, h3, h4, h5,
    setD, hasKey, lookupD, mergeD, getD, remapRow, key_mapping]

/-- C8 witness: concrete blob references `p1..p5` where only `p3`'s
download fails. -/
theorem C8_slot3_soft_failure_witness :
    let dl : String → Option String := fun u =>
      if u = "https://tnbsl.blob.core.windows.net/qr2image/p3" then none else some "B64"
    let row : Dict := [(blobAttr 1, "p1"), (blobAttr 2, "p2"), (blobAttr 3, "p3"),
      (blobAttr 4, "p4"), (blobAttr 5, "p5")]
    let business_unit : Dict := [("businessunitid", "u1"), ("name", "ALPHA")]
    let out := remapRow (mergeD business_unit (enrichRow dl row).1)
    lookupD out "image1_full" = some "B64" ∧
    lookupD out "image2_full" = some "B64" ∧
    lookupD out "image3_full" = some "" ∧
    lookupD out "image4_full" = some "B64" ∧
    lookupD out "image5_full" = some "B64" ∧
    ((row :: ([] : List Dict)).map
        (fun rw => remapRow (mergeD business_unit (enrichRow dl rw).1))).length =
      ([] : List Dict).length + 1 :=
  C8_slot3_soft_failure
    (fun u => if u = "https://tnbsl.blob.core.windows.net/qr2image/p3"
      then none else some "B64")
    "p1" "p2" "p3" "p4" "p5" "B64" "B64" "B64" "B64" "u1" "ALPHA" []
    (by decide) (by decide) (by decide) (by decide) (by decide)
    (by decide) (by decide) (by decide) (by decide) (by decide)

end Dataverse
